import Mathlib

/-
  Verification of the static container library in `src/static_types.h`
  (plus the concrete instances built in `src/test.cc`).

  Shallow embedding conventions:
  * A `tlist<T, ARGS...>` is modelled by the list of its literal values in
    declaration order (`List T`); a `tstrlist<ARGS...>` by the list of its
    string literals in declaration order (`List String`); a
    `tmap<KEY, VALUE, KVPAIRS...>` (of string keys and `tstrlist` values, the
    use case of the map's list interface) by its binding list in declaration
    order (`List (String × List String)`); a `thlist<ARGS...>` by its element
    count, with visitor calls recorded as the list of visited positions.
  * A C++ call is modelled as `Except CErr α`: `Except.ok v` is a normal
    return, `Except.error e` an abnormal outcome.  `CErr.indexError` stands
    for the `std::out_of_range` thrown on an index scan miss,
    `CErr.keyError` for the `std::out_of_range` thrown when a key is absent
    (messages starting with the text about a key that could not be found),
    `CErr.ub` for an unchecked out-of-bounds array read (undefined
    behaviour, no exception), and `CErr.illFormed` for a call whose template
    instantiation does not compile (a violated `requires` clause, or a
    member access on a type that lacks the member).
  * The compile-time countdown parameter `N` of the recursive helpers is
    kept explicitly, because it determines how many pack elements a scan can
    reach before the terminal level throws.
-/

/-- Abnormal outcomes of the C++ operations. -/
inductive CErr where
  | indexError : CErr
  | keyError : CErr
  | ub : CErr
  | illFormed : CErr
  deriving DecidableEq, Repr

/-- Result of a C++ call: a normal return value or an abnormal outcome. -/
abbrev CRes (α : Type) := Except CErr α

/-- `tlist<T, ARGS...>::operator[]` (src/static_types.h line 17):
`return values[i_];` — a plain array read with no bounds check.  In range it
yields the stored value; out of range it is an unchecked out-of-bounds read,
i.e. undefined behaviour, not a thrown exception. -/
def tlist_get {T : Type} (vs : List T) (i : Nat) : CRes T :=
  if h : i < vs.length then .ok (vs.get ⟨i, h⟩) else .error .ub

/-- `tstrlist::get_helper<N, T, REST...>` (src/static_types.h lines 157-168).
`T` is the HEAD of the remaining pack (declaration order) while `N` counts
down from `size() - 1`; `if (i == N) return T()();` otherwise recurse on
`N-1, REST...` when `N > 0`, else throw the index error.  A call whose pack
is exhausted while the countdown demands another level cannot be
instantiated (`requires (N < sizeof...(ARGS))`). -/
def tstrlist_get_helper (i : Nat) : Nat → List String → CRes String
  | _, [] => .error .illFormed
  | n, s :: rest =>
    if i = n then .ok s
    else if n = 0 then .error .indexError
    else tstrlist_get_helper i (n - 1) rest

/-- `tstrlist::operator[]` (src/static_types.h lines 170-173):
`get_helper<sizeof...(ARGS) - 1, ARGS...>(i)`.  On an empty pack the
instantiation is rejected (the countdown wraps and the helper needs at
least one pack element), so the operator is ill-formed there. -/
def tstrlist_get (ss : List String) (i : Nat) : CRes String :=
  if ss.length = 0 then .error .illFormed
  else tstrlist_get_helper i (ss.length - 1) ss

/-- Index trace of `thlist::visit<N>` (src/static_types.h lines 31-37):
`visitor(std::get<N>(items));` then recurse on `N-1` while `N > 0`.  The
result lists the tuple positions handed to the visitor, in call order. -/
def hvisit_trace : Nat → List Nat
  | 0 => [0]
  | n + 1 => (n + 1) :: hvisit_trace n

/-- `thlist::visit(visitor)` (src/static_types.h lines 39-42):
`visit<sizeof...(ARGS) - 1>(visitor)` guarded by
`requires (sizeof...(ARGS) > 0)`; on an empty pack the overload is
ill-formed.  `N` is the element count. -/
def thlist_visit_all (N : Nat) : CRes (List Nat) :=
  if N = 0 then .error .illFormed
  else .ok (hvisit_trace (N - 1))

/-- `thlist::ivisit<N>` (src/static_types.h lines 44-53):
`if (i == N) visitor(std::get<N>(items));` then recurse on `N-1` while
`N > 0`; the trailing unconditional `throw std::out_of_range(...)` runs at
level 0 (and the levels above never reach their own throw because the inner
call already threw).  The result pairs the positions handed to the visitor
(in call order) with the final outcome of the call. -/
def ivisit_run (i : Nat) : Nat → List Nat × CRes Unit
  | 0 => (if i = 0 then [0] else [], .error .indexError)
  | n + 1 =>
    let rest := ivisit_run i n
    ((if i = n + 1 then [n + 1] else []) ++ rest.1, rest.2)

/-- `thlist::visit(visitor, i)` (src/static_types.h lines 55-58):
`ivisit<sizeof...(ARGS) - 1>(visitor, i)` guarded by
`requires (sizeof...(ARGS) > 0)`; ill-formed on an empty pack. -/
def thlist_visit_at (N i : Nat) : List Nat × CRes Unit :=
  if N = 0 then ([], .error .illFormed)
  else ivisit_run i (N - 1)

/-- `tmap::size_helper<N, KV, REST...>` (src/static_types.h lines 92-103):
`if (KV().first() == key_) return KV().second.size();` else recurse on
`N-1, REST...` while `N > 0`, else throw the key error.  `KV` runs through
the bindings in declaration order. -/
def tmap_size_helper (key : String) : Nat → List (String × List String) → CRes Nat
  | _, [] => .error .illFormed
  | n, (k, v) :: rest =>
    if k = key then .ok v.length
    else if n = 0 then .error .keyError
    else tmap_size_helper key (n - 1) rest

/-- `tmap::size(key)` (src/static_types.h line 106):
`size_helper<sizeof...(KVPAIRS) - 1, KVPAIRS...>(key_)`.  On a map with no
bindings the countdown wraps and the `requires` clause rejects the
instantiation, so the call is ill-formed. -/
def tmap_size (pairs : List (String × List String)) (key : String) : CRes Nat :=
  if pairs.length = 0 then .error .illFormed
  else tmap_size_helper key (pairs.length - 1) pairs

/-- One element of the template pack handed to `tmap::index_helper`.  A
`std::pair<tstr(k), tstrlist<...>>` binding is `kv k v`; `nonPair` stands
for a type with no `first`/`second` members (such as the map's `VALUE`
type `std::string_view`), on which `KV().first()` does not compile. -/
inductive PackElem where
  | kv : String → List String → PackElem
  | nonPair : PackElem
  deriving DecidableEq, Repr

/-- `tmap::index_helper<N, KV, REST...>` (src/static_types.h lines 108-119):
`if (KV().first() == key_) return KV().second;` else recurse on
`N-1, REST...` while `N > 0`, else throw the key error.  A `nonPair` head
makes the level ill-formed (no `first()` member), and an exhausted pack
cannot satisfy the helper's signature. -/
def tmap_index_helper (key : String) : Nat → List PackElem → CRes (List String)
  | _, [] => .error .illFormed
  | _, PackElem.nonPair :: _ => .error .illFormed
  | n, PackElem.kv k v :: rest =>
    if k = key then .ok v
    else if n = 0 then .error .keyError
    else tmap_index_helper key (n - 1) rest

/-- `tmap::operator[]` (src/static_types.h lines 122-125):
`index_helper<sizeof...(KVPAIRS) - 1, VALUE, KVPAIRS...>(key_)` — note the
stray `VALUE` handed to the helper as the first pack element, ahead of the
actual bindings, while the countdown still starts at
`sizeof...(KVPAIRS) - 1`. -/
def tmap_index (pairs : List (String × List String)) (key : String) : CRes (List String) :=
  if pairs.length = 0 then .error .illFormed
  else tmap_index_helper key (pairs.length - 1)
    (PackElem.nonPair :: pairs.map (fun p => PackElem.kv p.1 p.2))

/-- `tmap::get_helper<N, KV, REST...>` (src/static_types.h lines 127-138):
`if (KV().first() == key_) return KV().second[i_];` (the `tstrlist` index
operator on the matched value) else recurse on `N-1, REST...` while
`N > 0`, else throw the key error. -/
def tmap_get_helper (key : String) (i : Nat) : Nat → List (String × List String) → CRes String
  | _, [] => .error .illFormed
  | n, (k, v) :: rest =>
    if k = key then tstrlist_get v i
    else if n = 0 then .error .keyError
    else tmap_get_helper key i (n - 1) rest

/-- `tmap::operator()` (src/static_types.h lines 142-145):
`get_helper<sizeof...(KVPAIRS) - 1, KVPAIRS...>(key_, i_)`; ill-formed on a
map with no bindings. -/
def tmap_call (pairs : List (String × List String)) (key : String) (i : Nat) : CRes String :=
  if pairs.length = 0 then .error .illFormed
  else tmap_get_helper key i (pairs.length - 1) pairs

/-- The map built for `instance3` in `src/test.cc` lines 97-101:
bindings `chicken ↦ [foo, bar]` and `beef ↦ [baz, bat]`, in that order. -/
def instance3_map : List (String × List String) :=
  [("chicken", ["foo", "bar"]), ("beef", ["baz", "bat"])]

/-- Decidable equality of call results, so that concrete runs can be
compared by `decide`. -/
instance {ε α : Type} [DecidableEq ε] [DecidableEq α] : DecidableEq (Except ε α)
  | Except.error e, Except.error f =>
    if h : e = f then .isTrue (h ▸ rfl) else .isFalse (fun hh => h (Except.error.inj hh))
  | Except.error _, Except.ok _ => .isFalse (fun hh => Except.noConfusion hh)
  | Except.ok _, Except.error _ => .isFalse (fun hh => Except.noConfusion hh)
  | Except.ok a, Except.ok b =>
    if h : a = b then .isTrue (h ▸ rfl) else .isFalse (fun hh => h (Except.ok.inj hh))

/-- Modelled from the spec: the first binding whose key equals `key`,
scanning the bindings in declaration order (spec §3 and §4.4). -/
def spec_firstMatch (key : String) : List (String × List String) → Option (List String)
  | [] => none
  | (k, v) :: rest => if k = key then some v else spec_firstMatch key rest

/-- Modelled from the spec: `size(key)` returns the number of elements of
the String Sequence bound to the first binding whose key equals `key`, and
fails with a KeyError when no binding's key equals `key` (spec §4.4). -/
def spec_tmap_size (pairs : List (String × List String)) (key : String) : CRes Nat :=
  match spec_firstMatch key pairs with
  | some v => .ok v.length
  | none => .error .keyError

theorem hvisit_trace_eq (n : Nat) : hvisit_trace n = (List.range (n + 1)).reverse := by
  induction n with
  | zero => rfl
  | succ m ih =>
    rw [List.range_succ, List.reverse_append, ← ih]
    rfl

theorem tstrlist_get_helper_oob :
    ∀ (ss : List String) (n i : Nat), ss.length = n + 1 → n < i →
      tstrlist_get_helper i n ss = .error .indexError := by
  intro ss
  induction ss with
  | nil => intro n i h _; exact absurd h (by simp)
  | cons s rest ih =>
    intro n i hlen hni
    have hne : i ≠ n := Nat.ne_of_gt hni
    cases n with
    | zero =>
      rw [tstrlist_get_helper, if_neg hne]
      simp
    | succ m =>
      have hrest : rest.length = m + 1 := by simpa using hlen
      rw [tstrlist_get_helper, if_neg hne, if_neg (by omega : ¬ m + 1 = 0)]
      exact ih m i hrest (by omega)

theorem tmap_size_helper_spec :
    ∀ (pairs : List (String × List String)) (n : Nat) (key : String),
      pairs.length = n + 1 →
      tmap_size_helper key n pairs = spec_tmap_size pairs key := by
  intro pairs
  induction pairs with
  | nil => intro n key h; exact absurd h (by simp)
  | cons p rest ih =>
    intro n key hlen
    obtain ⟨k, v⟩ := p
    by_cases hk : k = key
    · simp [tmap_size_helper, spec_tmap_size, spec_firstMatch, hk]
    · cases n with
      | zero =>
        have h0 : rest = [] := by
          have : rest.length = 0 := by simpa using hlen
          exact List.eq_nil_of_length_eq_zero this
        subst h0
        simp [tmap_size_helper, spec_tmap_size, spec_firstMatch, hk]
      | succ m =>
        have hrest : rest.length = m + 1 := by simpa using hlen
        rw [tmap_size_helper, if_neg hk, if_neg (by omega : ¬ m + 1 = 0),
          Nat.add_sub_cancel, ih m key hrest]
        simp [spec_tmap_size, spec_firstMatch, hk]

/-- Claim C1 (code bug, evaluated at the failing input): `tlist` does return
the originally supplied value (`tlist_get [5, 7, -3] 1 = 7`), but
`tstrlist` does not — `at(0)` on the sequence built from `["foo", "bar"]`
returns `"bar"`, the element at position `N - 1 - i`, not the value
`"foo"` supplied at position 0, because `get_helper` compares `i` against
the countdown `N` while peeling the pack from the front. -/
theorem c1_tstrlist_at_reversed :
    tstrlist_get ["foo", "bar"] 0 = .ok "bar" ∧
    "bar" ≠ "foo" ∧
    tlist_get [(5 : Int), 7, -3] 1 = .ok 7 := by
  refine ⟨rfl, by decide, rfl⟩

/-- Claim C2 (code bug, evaluated at the failing input): on a 2-element
heterogeneous sequence, `visit(op, 0)` with the in-range index 0 invokes
the visitor exactly once (trace `[0]`) and STILL ends in the unconditional
`throw std::out_of_range` at the bottom of `ivisit`, contradicting the
claim that a successful match is not followed by a failure signal and that
an error is raised only for out-of-range indices. -/
theorem c2_ivisit_always_throws :
    thlist_visit_at 2 0 = ([0], .error .indexError) := rfl

/-- Claim C3 (code bug, evaluated at the failing input): `tmap::operator[]`
hands the stray `VALUE` type to `index_helper` as the first pack element,
so on the `instance3` map the lookup of the present key `"chicken"` is
ill-formed (the first scan step calls `first()` on `std::string_view`)
instead of returning the first matching binding's value. -/
theorem c3_tmap_index_ill_formed :
    tmap_index instance3_map "chicken" = .error .illFormed := rfl

/-- Claim C4 (code bug, evaluated at the failing input): on the `instance3`
map, `size("chicken")` is 2 as claimed, but `get("beef", 0)` returns
`"bat"`, not the claimed `"baz"`, because the matched String Sequence
`["baz", "bat"]` is indexed in reverse by `tstrlist::get_helper`. -/
theorem c4_instance3_eval :
    tmap_size instance3_map "chicken" = .ok 2 ∧
    tmap_call instance3_map "beef" 0 = .ok "bat" ∧
    "bat" ≠ "baz" := by
  refine ⟨rfl, rfl, by decide⟩

/-- Claim C5 counterexample: `tlist::operator[]` performs no bounds check,
so `at(3)` on the 3-element sequence `[5, 7, -3]` is an unchecked
out-of-bounds read (undefined behaviour), not a thrown IndexError; and on
an empty `tstrlist` the index operator is ill-formed rather than raising
IndexError. -/
theorem c5_counterexample :
    tlist_get [(5 : Int), 7, -3] 3 = .error .ub ∧
    CErr.ub ≠ CErr.indexError ∧
    tstrlist_get [] 0 = .error .illFormed ∧
    CErr.illFormed ≠ CErr.indexError := by
  refine ⟨rfl, by decide, rfl, by decide⟩

/-- Claim C5 as amended: for every index at or past the end, a non-empty
String Sequence fails with IndexError (the index type is unsigned, so
negative indices are not representable), while a Constant Sequence
(`tlist`) performs an unchecked out-of-bounds array read with no
IndexError. -/
theorem c5_out_of_range {T : Type} (vs : List T) (ss : List String) (i j : Nat)
    (hi : vs.length ≤ i) (hs : ss ≠ []) (hj : ss.length ≤ j) :
    tlist_get vs i = .error .ub ∧ tstrlist_get ss j = .error .indexError := by
  have h0 : 0 < ss.length := List.length_pos.mpr hs
  constructor
  · unfold tlist_get
    rw [dif_neg (by omega)]
  · unfold tstrlist_get
    rw [if_neg (by omega)]
    exact tstrlist_get_helper_oob ss (ss.length - 1) j (by omega) (by omega)

/-- Witness for `c5_out_of_range` at the concrete inputs `[5]`, `["a"]`,
index 1. -/
theorem c5_out_of_range_witness :
    tlist_get [(5 : Int)] 1 = .error .ub ∧
    tstrlist_get ["a"] 1 = .error .indexError :=
  c5_out_of_range [(5 : Int)] ["a"] 1 1 (by decide) (by decide) (by decide)

/-- Claim C6 (code bug, evaluated at the failing input): on the `instance3`
map, `get("beef", 0)` (operator `()`) returns the value `"bat"`, but the
composition `get("beef").at(0)` claimed equal to it cannot produce any
value, because `get(key)` (operator `[]`) is ill-formed — so the claimed
equality fails. -/
theorem c6_call_vs_index_composition :
    tmap_call instance3_map "beef" 0 = .ok "bat" ∧
    (tmap_index instance3_map "beef").bind (fun l => tstrlist_get l 0) =
      .error .illFormed ∧
    tmap_call instance3_map "beef" 0 ≠
      (tmap_index instance3_map "beef").bind (fun l => tstrlist_get l 0) := by
  refine ⟨rfl, rfl, by decide⟩

/-- Claim C7 (confirmed): on a non-empty heterogeneous sequence of `N`
elements, `visit(op)` hands the visitor the elements at positions
`N-1, N-2, …, 0` — one call per element, `N` calls in all, in strictly
descending index order (the trace equals `List.range N` reversed). -/
theorem c7_visit_all_descending (N : Nat) (h : 0 < N) :
    thlist_visit_all N = .ok ((List.range N).reverse) ∧
    ((List.range N).reverse).length = N := by
  constructor
  · unfold thlist_visit_all
    rw [if_neg (by omega), hvisit_trace_eq, (by omega : N - 1 + 1 = N)]
  · simp

/-- Witness for `c7_visit_all_descending` at `N = 3`: the visitor sees
positions `[2, 1, 0]`. -/
theorem c7_visit_all_witness : thlist_visit_all 3 = .ok [2, 1, 0] := by
  rw [(c7_visit_all_descending 3 (by decide)).1]
  rfl

/-- Claim C8 counterexample: on a map with no bindings, `size(key)` is
ill-formed (its `requires` clause cannot be satisfied) instead of failing
with a KeyError, although no binding's key equals the key. -/
theorem c8_counterexample :
    tmap_size ([] : List (String × List String)) "a" = .error .illFormed ∧
    CErr.illFormed ≠ CErr.keyError := by
  refine ⟨rfl, by decide⟩

/-- Claim C8 as amended (non-empty maps): `size(key)` returns the number of
elements of the String Sequence bound to the first binding whose key
equals `key`, scanning in declaration order, and fails with a KeyError
exactly when no binding's key equals `key`. -/
theorem c8_size_key_first_match (pairs : List (String × List String))
    (key : String) (h : pairs ≠ []) :
    tmap_size pairs key = spec_tmap_size pairs key ∧
    (tmap_size pairs key = .error .keyError ↔ spec_firstMatch key pairs = none) := by
  have h0 : 0 < pairs.length := List.length_pos.mpr h
  have heq : tmap_size pairs key = spec_tmap_size pairs key := by
    unfold tmap_size
    rw [if_neg (by omega)]
    exact tmap_size_helper_spec pairs (pairs.length - 1) key (by omega)
  refine ⟨heq, ?_⟩
  rw [heq]
  unfold spec_tmap_size
  cases hfm : spec_firstMatch key pairs <;> simp [hfm]

/-- Witness for `c8_size_key_first_match` on the `instance3` map: the
binding of `"chicken"` holds 2 strings. -/
theorem c8_size_key_witness : tmap_size instance3_map "chicken" = .ok 2 := by
  rw [(c8_size_key_first_match instance3_map "chicken" (by decide)).1]
  rfl

/-- Claim C9 (confirmed): every core operation of the embedding is a total
function — the visit recursion started at countdown `n` performs exactly
`n + 1` steps (it descends to 0 and stops), and every operation evaluates
to a definite result on every input. -/
theorem c9_operations_terminate :
    (∀ n, (hvisit_trace n).length = n + 1) ∧
    (∀ (vs : List Int) (i : Nat), ∃ r, tlist_get vs i = r) ∧
    (∀ (ss : List String) (i : Nat), ∃ r, tstrlist_get ss i = r) ∧
    (∀ (pairs : List (String × List String)) (key : String),
      ∃ r, tmap_size pairs key = r) ∧
    (∀ (pairs : List (String × List String)) (key : String),
      ∃ r, tmap_index pairs key = r) ∧
    (∀ (pairs : List (String × List String)) (key : String) (i : Nat),
      ∃ r, tmap_call pairs key i = r) ∧
    (∀ N, ∃ t, thlist_visit_all N = t) ∧
    (∀ N i, ∃ t, thlist_visit_at N i = t) := by
  refine ⟨?_, fun vs i => ⟨_, rfl⟩, fun ss i => ⟨_, rfl⟩, fun pairs key => ⟨_, rfl⟩,
    fun pairs key => ⟨_, rfl⟩, fun pairs key i => ⟨_, rfl⟩, fun N => ⟨_, rfl⟩,
    fun N i => ⟨_, rfl⟩⟩
  intro n
  rw [hvisit_trace_eq]
  simp

/-- Claim C10 (confirmed): both visitation overloads carry the build-time
precondition `sizeof...(ARGS) > 0`, so on an empty heterogeneous sequence
neither `visit(op)` nor `visit(op, i)` can be instantiated — the empty
sequence exposes no visitation operation at all. -/
theorem c10_empty_hlist_no_visitation :
    thlist_visit_all 0 = .error .illFormed ∧
    ∀ i, thlist_visit_at 0 i = ([], .error .illFormed) :=
  ⟨rfl, fun _ => rfl⟩
